import Mathlib

set_option linter.all false

/-!
Shallow embedding of `src/chart/mesh.rs` from the plotters repository:
the `MeshStyle` configuration builder, its chainable mutators, and the
terminal render operation `draw`, which resolves default styles and issues
two `draw_mesh` calls (a fine pass and a coarse pass) against the target.

Machine integers are modelled as `Nat`/`Int`; `usize` arithmetic that can
overflow is taken modulo `2 ^ 64` (release-mode wrapping semantics on a
64-bit platform). The fallible `Option::unwrap` of the target slot is
modelled by an explicit `panicked` outcome.
-/

/-- Modelled from the spec: the color value type of the out-of-scope style
module (§6 style conversion). `RGBColor r g b` is a fully opaque RGB color;
`mix` scales the alpha channel by the given factor. Alpha is kept as an
exact rational. -/
structure RGBAColor where
  r : Nat
  g : Nat
  b : Nat
  alpha : ℚ
deriving Repr, DecidableEq

def RGBColor (r g b : Nat) : RGBAColor :=
  { r := r, g := g, b := b, alpha := 1 }

def RGBAColor.mix (c : RGBAColor) (a : ℚ) : RGBAColor :=
  { c with alpha := c.alpha * a }

/-- Modelled from the spec: a line style (color, stroke width) of the
out-of-scope style module. -/
structure ShapeStyle where
  color : RGBAColor
  stroke_width : Nat
deriving Repr, DecidableEq

/-- Modelled from the spec: the conversion of a color into a line style,
which the spec documents as producing stroke width 1 (§4.2 "width 1",
§6 style conversion). -/
def ShapeStyle.ofColor (c : RGBAColor) : ShapeStyle :=
  { color := c, stroke_width := 1 }

/-- Modelled from the spec: a font description (family name and size) of the
out-of-scope style module; `FontDesc::new` in the source. -/
structure FontDesc where
  name : String
  size : ℚ
deriving Repr, DecidableEq

def FontDesc.new (n : String) (s : ℚ) : FontDesc :=
  { name := n, size := s }

/-- Modelled from the spec: a text style (font, color) of the out-of-scope
style module. -/
structure TextStyle where
  font : FontDesc
  color : RGBAColor
deriving Repr, DecidableEq

/-- Modelled from the spec: the conversion of a font description into a text
style (§6 style conversion); the text color defaults to opaque black. -/
def TextStyle.ofFont (f : FontDesc) : TextStyle :=
  { font := f, color := RGBColor 0 0 0 }

/-- `MeshLine` from the out-of-scope coord module: a gridline tagged with the
axis it belongs to, two endpoint positions, and the domain value it sits at.
The source matches `MeshLine::XMesh(_, _, v)` / `MeshLine::YMesh(_, _, v)`,
ignoring the endpoints. -/
inductive MeshLine (α β : Type) where
  | XMesh : Int × Int → Int × Int → α → MeshLine α β
  | YMesh : Int × Int → Int × Int → β → MeshLine α β

/-- The `MeshStyle` configuration struct of `src/chart/mesh.rs`, generic over
the X domain value type `α`, the Y domain value type `β`, and the render
target type `T` (the `ChartContext` reference, out of scope). -/
structure MeshStyle (α β T : Type) where
  draw_x_mesh : Bool
  draw_y_mesh : Bool
  draw_x_axis : Bool
  draw_y_axis : Bool
  x_label_offset : Int
  n_x_labels : Nat
  n_y_labels : Nat
  axis_desc_style : Option TextStyle
  x_desc : Option String
  y_desc : Option String
  line_style_1 : Option ShapeStyle
  line_style_2 : Option ShapeStyle
  axis_style : Option ShapeStyle
  label_style : Option TextStyle
  format_x : α → String
  format_y : β → String
  target : Option T

/-! The chainable mutators. Each `&mut self` method is embedded as a state
transformer returning the updated configuration (the Rust methods return
`&mut Self`, the same object, for chaining). Parameters declared as
`T: Into<...>` in the source are taken here at the converted type, the
conversion having been applied by the caller. The methods share names with
the fields they set, so they are declared at top level rather than in the
`MeshStyle` namespace. -/

def x_label_offset (m : MeshStyle α β T) (value : Int) : MeshStyle α β T :=
  { m with x_label_offset := value }

def disable_x_mesh (m : MeshStyle α β T) : MeshStyle α β T :=
  { m with draw_x_mesh := false }

def disable_y_mesh (m : MeshStyle α β T) : MeshStyle α β T :=
  { m with draw_y_mesh := false }

def disable_x_axis (m : MeshStyle α β T) : MeshStyle α β T :=
  { m with draw_x_axis := false }

def disable_y_axis (m : MeshStyle α β T) : MeshStyle α β T :=
  { m with draw_y_axis := false }

def axis_style (m : MeshStyle α β T) (style : ShapeStyle) : MeshStyle α β T :=
  { m with axis_style := some style }

def x_labels (m : MeshStyle α β T) (value : Nat) : MeshStyle α β T :=
  { m with n_x_labels := value }

def y_labels (m : MeshStyle α β T) (value : Nat) : MeshStyle α β T :=
  { m with n_y_labels := value }

def line_style_1 (m : MeshStyle α β T) (style : ShapeStyle) : MeshStyle α β T :=
  { m with line_style_1 := some style }

def line_style_2 (m : MeshStyle α β T) (style : ShapeStyle) : MeshStyle α β T :=
  { m with line_style_2 := some style }

def label_style (m : MeshStyle α β T) (style : TextStyle) : MeshStyle α β T :=
  { m with label_style := some style }

def x_label_formatter (m : MeshStyle α β T) (fmt : α → String) : MeshStyle α β T :=
  { m with format_x := fmt }

def y_label_formatter (m : MeshStyle α β T) (fmt : β → String) : MeshStyle α β T :=
  { m with format_y := fmt }

def axis_desc_style (m : MeshStyle α β T) (style : TextStyle) : MeshStyle α β T :=
  { m with axis_desc_style := some style }

def x_desc (m : MeshStyle α β T) (desc : String) : MeshStyle α β T :=
  { m with x_desc := some desc }

def y_desc (m : MeshStyle α β T) (desc : String) : MeshStyle α β T :=
  { m with y_desc := some desc }

/-! The terminal render operation `draw` (`src/chart/mesh.rs`, lines
149-214). It first swaps the `target` slot out and unwraps it (a `None`
target — a spent builder — makes `unwrap` abort), then resolves the five
style slots against built-in defaults, then issues two `draw_mesh` calls
against the extracted target: the fine pass and the coarse pass. -/

def default_mesh_color_1 : RGBAColor := (RGBColor 0 0 0).mix 0.2

def default_mesh_color_2 : RGBAColor := (RGBColor 0 0 0).mix 0.1

def default_axis_color : RGBAColor := RGBColor 0 0 0

def default_label_font : FontDesc := FontDesc.new "Arial" 12

/-- `let mesh_style_1 = self.line_style_1.clone().unwrap_or_else(...)`. -/
def mesh_style_1 (m : MeshStyle α β T) : ShapeStyle :=
  m.line_style_1.getD (ShapeStyle.ofColor default_mesh_color_1)

/-- `let mesh_style_2 = self.line_style_2.clone().unwrap_or_else(...)`. -/
def mesh_style_2 (m : MeshStyle α β T) : ShapeStyle :=
  m.line_style_2.getD (ShapeStyle.ofColor default_mesh_color_2)

/-- `let axis_style = self.axis_style.clone().unwrap_or_else(...)`. -/
def resolved_axis_style (m : MeshStyle α β T) : ShapeStyle :=
  m.axis_style.getD (ShapeStyle.ofColor default_axis_color)

/-- `let label_style = ...` — the source's lifetime transmute of the cloned
option is the identity at the value level, so the resolution is just the
default substitution. -/
def resolved_label_style (m : MeshStyle α β T) : TextStyle :=
  m.label_style.getD (TextStyle.ofFont default_label_font)

/-- `let axis_desc_style = ...unwrap_or_else(|| label_style.clone())` — the
unset case falls back to the already-resolved label style. -/
def resolved_axis_desc_style (m : MeshStyle α β T) : TextStyle :=
  m.axis_desc_style.getD (resolved_label_style m)

/-- `usize` multiplication by 10 with release-mode wrapping on a 64-bit
platform: `self.n_y_labels * 10` in the source. -/
def usizeMul10 (n : Nat) : Nat := n * 10 % 2 ^ 64

def usizeMax : Nat := 2 ^ 64 - 1

/-- One call to the external mesh-drawing boundary
`ChartContext::draw_mesh` (out of scope, §6): the target it is issued
against and every argument the source passes. -/
structure DrawMeshCall (α β T : Type) where
  tgt : T
  label_count_hints : Nat × Nat
  grid_style : ShapeStyle
  lbl_style : TextStyle
  label_fn : MeshLine α β → Option String
  draw_x_mesh : Bool
  draw_y_mesh : Bool
  x_label_offset : Int
  draw_x_axis : Bool
  draw_y_axis : Bool
  ax_style : ShapeStyle
  ax_desc_style : TextStyle
  x_desc : Option String
  y_desc : Option String

/-- The first `draw_mesh` call of `draw` (lines 180-194): 10× label-count
hints, the fine grid style, a label callback that always yields `None`,
axis lines disabled, and the configured descriptions. -/
def fine_pass_call (m : MeshStyle α β T) (t : T) : DrawMeshCall α β T :=
  { tgt := t
    label_count_hints := (usizeMul10 m.n_y_labels, usizeMul10 m.n_x_labels)
    grid_style := mesh_style_2 m
    lbl_style := resolved_label_style m
    label_fn := fun _ => none
    draw_x_mesh := m.draw_x_mesh
    draw_y_mesh := m.draw_y_mesh
    x_label_offset := m.x_label_offset
    draw_x_axis := false
    draw_y_axis := false
    ax_style := resolved_axis_style m
    ax_desc_style := resolved_axis_desc_style m
    x_desc := m.x_desc
    y_desc := m.y_desc }

/-- The second `draw_mesh` call of `draw` (lines 196-213): the configured
label-count hints, the coarse grid style, a label callback dispatching on
the gridline's axis tag to the corresponding formatter, the configured
axis-line flags, and no descriptions. -/
def coarse_pass_call (m : MeshStyle α β T) (t : T) : DrawMeshCall α β T :=
  { tgt := t
    label_count_hints := (m.n_y_labels, m.n_x_labels)
    grid_style := mesh_style_1 m
    lbl_style := resolved_label_style m
    label_fn := fun l => match l with
      | MeshLine.XMesh _ _ v => some (m.format_x v)
      | MeshLine.YMesh _ _ v => some (m.format_y v)
    draw_x_mesh := m.draw_x_mesh
    draw_y_mesh := m.draw_y_mesh
    x_label_offset := m.x_label_offset
    draw_x_axis := m.draw_x_axis
    draw_y_axis := m.draw_y_axis
    ax_style := resolved_axis_style m
    ax_desc_style := resolved_axis_desc_style m
    x_desc := none
    y_desc := none }

/-- How a `draw` invocation ends: `panicked` models the abort of
`Option::unwrap` on a `None` target; `err e` a `DrawingAreaErrorKind`
returned through `?` or the tail call; `ok` success of both passes. -/
inductive DrawOutcome (E : Type) where
  | panicked
  | err (e : E)
  | ok
deriving Repr, DecidableEq

/-- The observable effect of one `draw` invocation: the `draw_mesh` calls
issued in order, the outcome, and the configuration as left behind. -/
structure DrawResult (α β T E : Type) where
  calls : List (DrawMeshCall α β T)
  outcome : DrawOutcome E
  final : MeshStyle α β T

/-- `MeshStyle::draw`, parameterised by the backend behaviour `bk` of the
out-of-scope `draw_mesh` boundary. The target slot is swapped out first
(leaving the builder spent); an absent target aborts at `unwrap`; a failing
fine pass short-circuits via `?`; otherwise the coarse pass's result is
returned. -/
def MeshStyle.draw (m : MeshStyle α β T)
    (bk : DrawMeshCall α β T → Except E Unit) : DrawResult α β T E :=
  match m.target with
  | none =>
    { calls := [], outcome := DrawOutcome.panicked, final := { m with target := none } }
  | some t =>
    match bk (fine_pass_call m t) with
    | Except.error e =>
      { calls := [fine_pass_call m t], outcome := DrawOutcome.err e,
        final := { m with target := none } }
    | Except.ok _ =>
      match bk (coarse_pass_call m t) with
      | Except.error e =>
        { calls := [fine_pass_call m t, coarse_pass_call m t], outcome := DrawOutcome.err e,
          final := { m with target := none } }
      | Except.ok _ =>
        { calls := [fine_pass_call m t, coarse_pass_call m t], outcome := DrawOutcome.ok,
          final := { m with target := none } }

/-! Concrete instances used by witnesses and counterexamples. -/

/-- A sample configuration: defaults everywhere except `n_x_labels =
n_y_labels = 5` and `y_desc = some "Time"`, with a live target. -/
def sampleCfg : MeshStyle Nat Nat Nat :=
  { draw_x_mesh := true
    draw_y_mesh := true
    draw_x_axis := true
    draw_y_axis := true
    x_label_offset := 0
    n_x_labels := 5
    n_y_labels := 5
    axis_desc_style := none
    x_desc := none
    y_desc := some "Time"
    line_style_1 := none
    line_style_2 := none
    axis_style := none
    label_style := none
    format_x := fun n => toString n
    format_y := fun n => toString n
    target := some 0 }

/-- `sampleCfg` with a Y label count large enough that `* 10` overflows a
64-bit `usize`. -/
def cfgOverflow : MeshStyle Nat Nat Nat :=
  { sampleCfg with n_y_labels := 2 ^ 63 }

/-- A backend that accepts every `draw_mesh` call. -/
def bkOk : DrawMeshCall Nat Nat Nat → Except Unit Unit := fun _ => Except.ok ()

/-! Theorems settling the claims. -/

/-- C9: in the coarse pass, the label callback returns `some` text for every
gridline of either axis; no gridline's label is ever suppressed per-gridline
by this layer. -/
theorem C9_coarse_label_always_some (m : MeshStyle α β T) (t : T) (l : MeshLine α β) :
    ((coarse_pass_call m t).label_fn l).isSome = true := by
  cases l <;> rfl

/-- C5: the coarse pass's label callback invokes `format_x` exactly on
X-tagged gridlines (at that gridline's domain value) and `format_y` exactly
on Y-tagged ones; the result on an X-tagged gridline is independent of the
Y formatter and vice versa, so the wrong-axis formatter is never invoked. -/
theorem C5_label_dispatch (m : MeshStyle α β T) (t : T)
    (p q : Int × Int) (vx : α) (vy : β) :
    (coarse_pass_call m t).label_fn (MeshLine.XMesh p q vx) = some (m.format_x vx) ∧
    (coarse_pass_call m t).label_fn (MeshLine.YMesh p q vy) = some (m.format_y vy) ∧
    (∀ fy : β → String,
      (coarse_pass_call (y_label_formatter m fy) t).label_fn (MeshLine.XMesh p q vx) =
        (coarse_pass_call m t).label_fn (MeshLine.XMesh p q vx)) ∧
    (∀ fx : α → String,
      (coarse_pass_call (x_label_formatter m fx) t).label_fn (MeshLine.YMesh p q vy) =
        (coarse_pass_call m t).label_fn (MeshLine.YMesh p q vy)) :=
  ⟨rfl, rfl, fun _ => rfl, fun _ => rfl⟩

/-- C2: contrary to the claim, a second `draw` on an already-rendered
configuration does not return a reported error result: the source unwraps
the swapped-out target slot unconditionally (`target.unwrap()`), so the
second invocation aborts. Evaluated here at a concrete configuration: after
one successful `draw`, drawing the spent configuration again yields the
`panicked` outcome. -/
theorem C2_second_draw_panics :
    (((sampleCfg.draw bkOk).final).draw bkOk).outcome = DrawOutcome.panicked := rfl

/-- C7: the terminal render mutates no configuration field other than
`target`: every stored optional style field, flag, count, offset, formatter
and description is unchanged in the configuration `draw` leaves behind, and
`target` is left consumed. Style resolution only produces transient values
for the render. -/
theorem C7_draw_preserves_config (m : MeshStyle α β T)
    (bk : DrawMeshCall α β T → Except E Unit) :
    (m.draw bk).final.draw_x_mesh = m.draw_x_mesh ∧
    (m.draw bk).final.draw_y_mesh = m.draw_y_mesh ∧
    (m.draw bk).final.draw_x_axis = m.draw_x_axis ∧
    (m.draw bk).final.draw_y_axis = m.draw_y_axis ∧
    (m.draw bk).final.x_label_offset = m.x_label_offset ∧
    (m.draw bk).final.n_x_labels = m.n_x_labels ∧
    (m.draw bk).final.n_y_labels = m.n_y_labels ∧
    (m.draw bk).final.axis_desc_style = m.axis_desc_style ∧
    (m.draw bk).final.x_desc = m.x_desc ∧
    (m.draw bk).final.y_desc = m.y_desc ∧
    (m.draw bk).final.line_style_1 = m.line_style_1 ∧
    (m.draw bk).final.line_style_2 = m.line_style_2 ∧
    (m.draw bk).final.axis_style = m.axis_style ∧
    (m.draw bk).final.label_style = m.label_style ∧
    (m.draw bk).final.format_x = m.format_x ∧
    (m.draw bk).final.format_y = m.format_y ∧
    (m.draw bk).final.target = none := by
  have hfin : (m.draw bk).final = { m with target := none } := by
    unfold MeshStyle.draw
    split
    · rfl
    · split
      · rfl
      · split <;> rfl
  rw [hfin]
  repeat' apply And.intro
  all_goals rfl

/-- C6: `draw` issues exactly two `draw_mesh` calls, fine pass first then
coarse pass, both against the same extracted target; a `DrawError` from the
fine pass stops the render before the coarse pass and is propagated
unchanged, and a coarse-pass error is likewise propagated unchanged. -/
theorem C6_two_pass_order_and_errors (m : MeshStyle α β T)
    (bk : DrawMeshCall α β T → Except E Unit) (t : T) (h : m.target = some t) :
    (∀ c ∈ (m.draw bk).calls, c.tgt = t) ∧
    (bk (fine_pass_call m t) = Except.ok () → bk (coarse_pass_call m t) = Except.ok () →
      (m.draw bk).calls = [fine_pass_call m t, coarse_pass_call m t] ∧
      (m.draw bk).outcome = DrawOutcome.ok) ∧
    (∀ e, bk (fine_pass_call m t) = Except.error e →
      (m.draw bk).calls = [fine_pass_call m t] ∧
      (m.draw bk).outcome = DrawOutcome.err e) ∧
    (∀ e, bk (fine_pass_call m t) = Except.ok () → bk (coarse_pass_call m t) = Except.error e →
      (m.draw bk).calls = [fine_pass_call m t, coarse_pass_call m t] ∧
      (m.draw bk).outcome = DrawOutcome.err e) := by
  simp only [MeshStyle.draw, h]
  cases hc1 : bk (fine_pass_call m t) with
  | error e1 =>
    refine ⟨?_, ?_, ?_, ?_⟩
    · intro c hc
      rw [List.mem_singleton] at hc
      subst hc; rfl
    · intro hok; exact absurd hok (by simp)
    · intro e he
      injection he with he'
      subst he'; exact ⟨rfl, rfl⟩
    · intro e hok; exact absurd hok (by simp)
  | ok u1 =>
    cases u1
    cases hc2 : bk (coarse_pass_call m t) with
    | error e2 =>
      refine ⟨?_, ?_, ?_, ?_⟩
      · intro c hc
        rw [List.mem_pair] at hc
        rcases hc with rfl | rfl <;> rfl
      · intro _ hok; exact absurd hok (by simp)
      · intro e he; exact absurd he (by simp)
      · intro e _ he
        injection he with he'
        subst he'; exact ⟨rfl, rfl⟩
    | ok u2 =>
      cases u2
      refine ⟨?_, ?_, ?_, ?_⟩
      · intro c hc
        rw [List.mem_pair] at hc
        rcases hc with rfl | rfl <;> rfl
      · intro _ _; exact ⟨rfl, rfl⟩
      · intro e he; exact absurd he (by simp)
      · intro e _ he; exact absurd he (by simp)

/-- Witness for C6: at a concrete configuration with a live target and a
backend accepting every call, `draw` issues exactly the fine-then-coarse
pair of calls and succeeds. -/
theorem C6_two_pass_order_and_errors_witness :
    (sampleCfg.draw bkOk).calls =
      [fine_pass_call sampleCfg 0, coarse_pass_call sampleCfg 0] ∧
    (sampleCfg.draw bkOk).outcome = DrawOutcome.ok :=
  (C6_two_pass_order_and_errors sampleCfg bkOk 0 rfl).2.1 rfl rfl

/-- C1 counterexample: with `x_desc = none`, `y_desc = some "Time"` the
claim predicts pass descriptions `[(none, none), (none, some "Time")]`
(fine pass first with none, coarse pass second with the configured values);
the code passes the configured descriptions to the fine pass and none to
the coarse pass, so the prediction fails. -/
theorem C1_counterexample :
    ¬ ((sampleCfg.draw bkOk).calls.map (fun c => (c.x_desc, c.y_desc)) =
        [((none : Option String), (none : Option String)),
         ((none : Option String), some "Time")]) := by
  decide

/-- C1 (amended): for every configuration with a live target, the FINE pass
(always the first `draw_mesh` call) receives the configured `x_desc` and
`y_desc` values, and the COARSE pass (the second call, when reached) passes
no axis descriptions to the mesh-drawing boundary. -/
theorem C1_desc_routing (m : MeshStyle α β T)
    (bk : DrawMeshCall α β T → Except E Unit) (t : T) (h : m.target = some t) :
    (m.draw bk).calls.head? = some (fine_pass_call m t) ∧
    ((m.draw bk).calls = [fine_pass_call m t] ∨
      (m.draw bk).calls = [fine_pass_call m t, coarse_pass_call m t]) ∧
    (fine_pass_call m t).x_desc = m.x_desc ∧
    (fine_pass_call m t).y_desc = m.y_desc ∧
    (coarse_pass_call m t).x_desc = none ∧
    (coarse_pass_call m t).y_desc = none := by
  refine ⟨?_, ?_, rfl, rfl, rfl, rfl⟩ <;>
  · simp only [MeshStyle.draw, h]
    cases bk (fine_pass_call m t) with
    | error e => first | rfl | exact Or.inl rfl
    | ok u =>
      cases bk (coarse_pass_call m t) with
      | error e => first | rfl | exact Or.inr rfl
      | ok u => first | rfl | exact Or.inr rfl

/-- Witness for C1 (amended) at a concrete configuration with
`x_desc = none`, `y_desc = some "Time"`. -/
theorem C1_desc_routing_witness :
    (sampleCfg.draw bkOk).calls.head? = some (fine_pass_call sampleCfg 0) ∧
    ((sampleCfg.draw bkOk).calls = [fine_pass_call sampleCfg 0] ∨
      (sampleCfg.draw bkOk).calls =
        [fine_pass_call sampleCfg 0, coarse_pass_call sampleCfg 0]) ∧
    (fine_pass_call sampleCfg 0).x_desc = sampleCfg.x_desc ∧
    (fine_pass_call sampleCfg 0).y_desc = sampleCfg.y_desc ∧
    (coarse_pass_call sampleCfg 0).x_desc = none ∧
    (coarse_pass_call sampleCfg 0).y_desc = none :=
  C1_desc_routing sampleCfg bkOk 0 rfl

/-- C4: for every configuration, each style slot resolves to the stored
override when one is set and otherwise to the built-in default (coarse
grid: black at 20% opacity, width 1 — reading as light gray; fine grid:
black at 10% opacity, width 1; axis: solid black; labels: "Arial" at size
12); the axis-description style, when unset, resolves to the
already-resolved label style, not an independent default. Both passes
receive exactly these resolved values. -/
theorem C4_style_resolution (m : MeshStyle α β T) (t : T) :
    mesh_style_1 m = m.line_style_1.getD
      { color := { r := 0, g := 0, b := 0, alpha := 1/5 }, stroke_width := 1 } ∧
    mesh_style_2 m = m.line_style_2.getD
      { color := { r := 0, g := 0, b := 0, alpha := 1/10 }, stroke_width := 1 } ∧
    resolved_axis_style m = m.axis_style.getD
      { color := { r := 0, g := 0, b := 0, alpha := 1 }, stroke_width := 1 } ∧
    resolved_label_style m = m.label_style.getD
      { font := { name := "Arial", size := 12 },
        color := { r := 0, g := 0, b := 0, alpha := 1 } } ∧
    resolved_axis_desc_style m = m.axis_desc_style.getD (resolved_label_style m) ∧
    (fine_pass_call m t).grid_style = mesh_style_2 m ∧
    (fine_pass_call m t).lbl_style = resolved_label_style m ∧
    (fine_pass_call m t).ax_style = resolved_axis_style m ∧
    (fine_pass_call m t).ax_desc_style = resolved_axis_desc_style m ∧
    (coarse_pass_call m t).grid_style = mesh_style_1 m ∧
    (coarse_pass_call m t).lbl_style = resolved_label_style m ∧
    (coarse_pass_call m t).ax_style = resolved_axis_style m ∧
    (coarse_pass_call m t).ax_desc_style = resolved_axis_desc_style m := by
  have h1 : ShapeStyle.ofColor default_mesh_color_1 =
      { color := { r := 0, g := 0, b := 0, alpha := 1/5 }, stroke_width := 1 } := by
    simp [ShapeStyle.ofColor, default_mesh_color_1, RGBAColor.mix, RGBColor]
    norm_num
  have h2 : ShapeStyle.ofColor default_mesh_color_2 =
      { color := { r := 0, g := 0, b := 0, alpha := 1/10 }, stroke_width := 1 } := by
    simp [ShapeStyle.ofColor, default_mesh_color_2, RGBAColor.mix, RGBColor]
    norm_num
  have h3 : ShapeStyle.ofColor default_axis_color =
      { color := { r := 0, g := 0, b := 0, alpha := 1 }, stroke_width := 1 } := by
    simp [ShapeStyle.ofColor, default_axis_color, RGBColor]
  have h4 : TextStyle.ofFont default_label_font =
      { font := { name := "Arial", size := 12 },
        color := { r := 0, g := 0, b := 0, alpha := 1 } } := by
    simp [TextStyle.ofFont, default_label_font, FontDesc.new, RGBColor]
  refine ⟨?_, ?_, ?_, ?_, rfl, rfl, rfl, rfl, rfl, rfl, rfl, rfl, rfl⟩
  · rw [mesh_style_1, h1]
  · rw [mesh_style_2, h2]
  · rw [resolved_axis_style, h3]
  · rw [resolved_label_style, h4]

/-- C3 counterexample: at a configuration with `n_y_labels = 2 ^ 63` the
fine pass's Y hint is the wrapped product `0`, not 10 times the coarse
pass's `2 ^ 63`, so the claim's universally quantified 10× relation (with
its other conjuncts) fails. -/
theorem C3_counterexample :
    ¬ ((cfgOverflow.draw bkOk).calls.map DrawMeshCall.label_count_hints =
          [(10 * 2 ^ 63, 10 * 5), (2 ^ 63, 5)] ∧
        (∀ l : MeshLine Nat Nat, (fine_pass_call cfgOverflow 0).label_fn l = none) ∧
        (fine_pass_call cfgOverflow 0).draw_x_axis = false ∧
        (fine_pass_call cfgOverflow 0).draw_y_axis = false) := by
  intro hcl
  exact absurd hcl.1 (by decide)

/-- C3 (amended): whenever neither label count exceeds `usize::MAX / 10`
(so the multiplications by 10 do not overflow), the fine pass's label-count
hints are exactly 10 times the coarse pass's; its label-text callback
yields no text for every gridline, and both its axis-line flags are
disabled. -/
theorem C3_fine_pass_shape (m : MeshStyle α β T) (t : T)
    (hy : m.n_y_labels * 10 < 2 ^ 64) (hx : m.n_x_labels * 10 < 2 ^ 64) :
    (fine_pass_call m t).label_count_hints =
      (10 * (coarse_pass_call m t).label_count_hints.1,
       10 * (coarse_pass_call m t).label_count_hints.2) ∧
    (∀ l : MeshLine α β, (fine_pass_call m t).label_fn l = none) ∧
    (fine_pass_call m t).draw_x_axis = false ∧
    (fine_pass_call m t).draw_y_axis = false := by
  refine ⟨?_, fun l => rfl, rfl, rfl⟩
  simp only [fine_pass_call, coarse_pass_call, usizeMul10]
  rw [Nat.mod_eq_of_lt hy, Nat.mod_eq_of_lt hx]
  simp [Nat.mul_comm]

/-- Witness for C3 (amended) at the concrete configuration with label
counts 5 and 5, whose products by 10 fit in `usize`. -/
theorem C3_fine_pass_shape_witness :
    (fine_pass_call sampleCfg 0).label_count_hints =
      (10 * (coarse_pass_call sampleCfg 0).label_count_hints.1,
       10 * (coarse_pass_call sampleCfg 0).label_count_hints.2) ∧
    (fine_pass_call sampleCfg 0).label_fn (MeshLine.XMesh (0, 0) (0, 0) 3) = none ∧
    (fine_pass_call sampleCfg 0).draw_x_axis = false ∧
    (fine_pass_call sampleCfg 0).draw_y_axis = false :=
  ⟨(C3_fine_pass_shape sampleCfg 0 (by decide) (by decide)).1,
   (C3_fine_pass_shape sampleCfg 0 (by decide) (by decide)).2.1 _,
   (C3_fine_pass_shape sampleCfg 0 (by decide) (by decide)).2.2.1,
   (C3_fine_pass_shape sampleCfg 0 (by decide) (by decide)).2.2.2⟩

/-- C10: the fine-pass label-count hints are the unchecked 64-bit products
`(n_y_labels * 10 mod 2 ^ 64, n_x_labels * 10 mod 2 ^ 64)`; when a label
count exceeds `usize::MAX / 10`, the passed hint is strictly below the
mathematical product — the multiplication wraps instead of clamping or
degrading gracefully. -/
theorem C10_fine_hints_wrap (m : MeshStyle α β T) (t : T) :
    (fine_pass_call m t).label_count_hints =
      (m.n_y_labels * 10 % 2 ^ 64, m.n_x_labels * 10 % 2 ^ 64) ∧
    (usizeMax / 10 < m.n_y_labels →
      (fine_pass_call m t).label_count_hints.1 < m.n_y_labels * 10) ∧
    (usizeMax / 10 < m.n_x_labels →
      (fine_pass_call m t).label_count_hints.2 < m.n_x_labels * 10) := by
  have key : ∀ n : Nat, usizeMax / 10 < n → n * 10 % 2 ^ 64 < n * 10 := by
    intro n hn
    have hmax : usizeMax / 10 = 1844674407370955161 := by decide
    rw [hmax] at hn
    have h64 : (2 : Nat) ^ 64 = 18446744073709551616 := by norm_num
    rw [h64]
    omega
  exact ⟨rfl, fun h => key _ h, fun h => key _ h⟩

/-- Witness for C10 at the overflowing configuration `n_y_labels = 2 ^ 63`:
the hint formula holds and the Y hint is strictly below the mathematical
product. -/
theorem C10_fine_hints_wrap_witness :
    (fine_pass_call cfgOverflow 0).label_count_hints =
      (cfgOverflow.n_y_labels * 10 % 2 ^ 64, cfgOverflow.n_x_labels * 10 % 2 ^ 64) ∧
    (fine_pass_call cfgOverflow 0).label_count_hints.1 < cfgOverflow.n_y_labels * 10 :=
  ⟨(C10_fine_hints_wrap cfgOverflow 0).1,
   (C10_fine_hints_wrap cfgOverflow 0).2.1 (by decide)⟩

set_option maxRecDepth 8192 in
/-- C8: every mutator of the configuration builder overwrites exactly its
corresponding field with the given value and leaves every other field —
including the target slot — unchanged, for every prior builder state; no
mutator performs validation, and each returns the updated builder for
chaining. -/
theorem C8_mutators_exact (m : MeshStyle α β T) (voff : Int) (nx ny : Nat)
    (s1 s2 sa : ShapeStyle) (ls ads : TextStyle)
    (fx : α → String) (fy : β → String) (dx dy : String) :
    (x_label_offset m voff).x_label_offset = voff ∧
    (x_label_offset m voff).draw_x_mesh = m.draw_x_mesh ∧
    (x_label_offset m voff).draw_y_mesh = m.draw_y_mesh ∧
    (x_label_offset m voff).draw_x_axis = m.draw_x_axis ∧
    (x_label_offset m voff).draw_y_axis = m.draw_y_axis ∧
    (x_label_offset m voff).n_x_labels = m.n_x_labels ∧
    (x_label_offset m voff).n_y_labels = m.n_y_labels ∧
    (x_label_offset m voff).axis_desc_style = m.axis_desc_style ∧
    (x_label_offset m voff).x_desc = m.x_desc ∧
    (x_label_offset m voff).y_desc = m.y_desc ∧
    (x_label_offset m voff).line_style_1 = m.line_style_1 ∧
    (x_label_offset m voff).line_style_2 = m.line_style_2 ∧
    (x_label_offset m voff).axis_style = m.axis_style ∧
    (x_label_offset m voff).label_style = m.label_style ∧
    (x_label_offset m voff).format_x = m.format_x ∧
    (x_label_offset m voff).format_y = m.format_y ∧
    (x_label_offset m voff).target = m.target ∧
    (disable_x_mesh m).draw_x_mesh = false ∧
    (disable_x_mesh m).draw_y_mesh = m.draw_y_mesh ∧
    (disable_x_mesh m).draw_x_axis = m.draw_x_axis ∧
    (disable_x_mesh m).draw_y_axis = m.draw_y_axis ∧
    (disable_x_mesh m).x_label_offset = m.x_label_offset ∧
    (disable_x_mesh m).n_x_labels = m.n_x_labels ∧
    (disable_x_mesh m).n_y_labels = m.n_y_labels ∧
    (disable_x_mesh m).axis_desc_style = m.axis_desc_style ∧
    (disable_x_mesh m).x_desc = m.x_desc ∧
    (disable_x_mesh m).y_desc = m.y_desc ∧
    (disable_x_mesh m).line_style_1 = m.line_style_1 ∧
    (disable_x_mesh m).line_style_2 = m.line_style_2 ∧
    (disable_x_mesh m).axis_style = m.axis_style ∧
    (disable_x_mesh m).label_style = m.label_style ∧
    (disable_x_mesh m).format_x = m.format_x ∧
    (disable_x_mesh m).format_y = m.format_y ∧
    (disable_x_mesh m).target = m.target ∧
    (disable_y_mesh m).draw_y_mesh = false ∧
    (disable_y_mesh m).draw_x_mesh = m.draw_x_mesh ∧
    (disable_y_mesh m).draw_x_axis = m.draw_x_axis ∧
    (disable_y_mesh m).draw_y_axis = m.draw_y_axis ∧
    (disable_y_mesh m).x_label_offset = m.x_label_offset ∧
    (disable_y_mesh m).n_x_labels = m.n_x_labels ∧
    (disable_y_mesh m).n_y_labels = m.n_y_labels ∧
    (disable_y_mesh m).axis_desc_style = m.axis_desc_style ∧
    (disable_y_mesh m).x_desc = m.x_desc ∧
    (disable_y_mesh m).y_desc = m.y_desc ∧
    (disable_y_mesh m).line_style_1 = m.line_style_1 ∧
    (disable_y_mesh m).line_style_2 = m.line_style_2 ∧
    (disable_y_mesh m).axis_style = m.axis_style ∧
    (disable_y_mesh m).label_style = m.label_style ∧
    (disable_y_mesh m).format_x = m.format_x ∧
    (disable_y_mesh m).format_y = m.format_y ∧
    (disable_y_mesh m).target = m.target ∧
    (disable_x_axis m).draw_x_axis = false ∧
    (disable_x_axis m).draw_x_mesh = m.draw_x_mesh ∧
    (disable_x_axis m).draw_y_mesh = m.draw_y_mesh ∧
    (disable_x_axis m).draw_y_axis = m.draw_y_axis ∧
    (disable_x_axis m).x_label_offset = m.x_label_offset ∧
    (disable_x_axis m).n_x_labels = m.n_x_labels ∧
    (disable_x_axis m).n_y_labels = m.n_y_labels ∧
    (disable_x_axis m).axis_desc_style = m.axis_desc_style ∧
    (disable_x_axis m).x_desc = m.x_desc ∧
    (disable_x_axis m).y_desc = m.y_desc ∧
    (disable_x_axis m).line_style_1 = m.line_style_1 ∧
    (disable_x_axis m).line_style_2 = m.line_style_2 ∧
    (disable_x_axis m).axis_style = m.axis_style ∧
    (disable_x_axis m).label_style = m.label_style ∧
    (disable_x_axis m).format_x = m.format_x ∧
    (disable_x_axis m).format_y = m.format_y ∧
    (disable_x_axis m).target = m.target ∧
    (disable_y_axis m).draw_y_axis = false ∧
    (disable_y_axis m).draw_x_mesh = m.draw_x_mesh ∧
    (disable_y_axis m).draw_y_mesh = m.draw_y_mesh ∧
    (disable_y_axis m).draw_x_axis = m.draw_x_axis ∧
    (disable_y_axis m).x_label_offset = m.x_label_offset ∧
    (disable_y_axis m).n_x_labels = m.n_x_labels ∧
    (disable_y_axis m).n_y_labels = m.n_y_labels ∧
    (disable_y_axis m).axis_desc_style = m.axis_desc_style ∧
    (disable_y_axis m).x_desc = m.x_desc ∧
    (disable_y_axis m).y_desc = m.y_desc ∧
    (disable_y_axis m).line_style_1 = m.line_style_1 ∧
    (disable_y_axis m).line_style_2 = m.line_style_2 ∧
    (disable_y_axis m).axis_style = m.axis_style ∧
    (disable_y_axis m).label_style = m.label_style ∧
    (disable_y_axis m).format_x = m.format_x ∧
    (disable_y_axis m).format_y = m.format_y ∧
    (disable_y_axis m).target = m.target ∧
    (axis_style m sa).axis_style = some sa ∧
    (axis_style m sa).draw_x_mesh = m.draw_x_mesh ∧
    (axis_style m sa).draw_y_mesh = m.draw_y_mesh ∧
    (axis_style m sa).draw_x_axis = m.draw_x_axis ∧
    (axis_style m sa).draw_y_axis = m.draw_y_axis ∧
    (axis_style m sa).x_label_offset = m.x_label_offset ∧
    (axis_style m sa).n_x_labels = m.n_x_labels ∧
    (axis_style m sa).n_y_labels = m.n_y_labels ∧
    (axis_style m sa).axis_desc_style = m.axis_desc_style ∧
    (axis_style m sa).x_desc = m.x_desc ∧
    (axis_style m sa).y_desc = m.y_desc ∧
    (axis_style m sa).line_style_1 = m.line_style_1 ∧
    (axis_style m sa).line_style_2 = m.line_style_2 ∧
    (axis_style m sa).label_style = m.label_style ∧
    (axis_style m sa).format_x = m.format_x ∧
    (axis_style m sa).format_y = m.format_y ∧
    (axis_style m sa).target = m.target ∧
    (x_labels m nx).n_x_labels = nx ∧
    (x_labels m nx).draw_x_mesh = m.draw_x_mesh ∧
    (x_labels m nx).draw_y_mesh = m.draw_y_mesh ∧
    (x_labels m nx).draw_x_axis = m.draw_x_axis ∧
    (x_labels m nx).draw_y_axis = m.draw_y_axis ∧
    (x_labels m nx).x_label_offset = m.x_label_offset ∧
    (x_labels m nx).n_y_labels = m.n_y_labels ∧
    (x_labels m nx).axis_desc_style = m.axis_desc_style ∧
    (x_labels m nx).x_desc = m.x_desc ∧
    (x_labels m nx).y_desc = m.y_desc ∧
    (x_labels m nx).line_style_1 = m.line_style_1 ∧
    (x_labels m nx).line_style_2 = m.line_style_2 ∧
    (x_labels m nx).axis_style = m.axis_style ∧
    (x_labels m nx).label_style = m.label_style ∧
    (x_labels m nx).format_x = m.format_x ∧
    (x_labels m nx).format_y = m.format_y ∧
    (x_labels m nx).target = m.target ∧
    (y_labels m ny).n_y_labels = ny ∧
    (y_labels m ny).draw_x_mesh = m.draw_x_mesh ∧
    (y_labels m ny).draw_y_mesh = m.draw_y_mesh ∧
    (y_labels m ny).draw_x_axis = m.draw_x_axis ∧
    (y_labels m ny).draw_y_axis = m.draw_y_axis ∧
    (y_labels m ny).x_label_offset = m.x_label_offset ∧
    (y_labels m ny).n_x_labels = m.n_x_labels ∧
    (y_labels m ny).axis_desc_style = m.axis_desc_style ∧
    (y_labels m ny).x_desc = m.x_desc ∧
    (y_labels m ny).y_desc = m.y_desc ∧
    (y_labels m ny).line_style_1 = m.line_style_1 ∧
    (y_labels m ny).line_style_2 = m.line_style_2 ∧
    (y_labels m ny).axis_style = m.axis_style ∧
    (y_labels m ny).label_style = m.label_style ∧
    (y_labels m ny).format_x = m.format_x ∧
    (y_labels m ny).format_y = m.format_y ∧
    (y_labels m ny).target = m.target ∧
    (line_style_1 m s1).line_style_1 = some s1 ∧
    (line_style_1 m s1).draw_x_mesh = m.draw_x_mesh ∧
    (line_style_1 m s1).draw_y_mesh = m.draw_y_mesh ∧
    (line_style_1 m s1).draw_x_axis = m.draw_x_axis ∧
    (line_style_1 m s1).draw_y_axis = m.draw_y_axis ∧
    (line_style_1 m s1).x_label_offset = m.x_label_offset ∧
    (line_style_1 m s1).n_x_labels = m.n_x_labels ∧
    (line_style_1 m s1).n_y_labels = m.n_y_labels ∧
    (line_style_1 m s1).axis_desc_style = m.axis_desc_style ∧
    (line_style_1 m s1).x_desc = m.x_desc ∧
    (line_style_1 m s1).y_desc = m.y_desc ∧
    (line_style_1 m s1).line_style_2 = m.line_style_2 ∧
    (line_style_1 m s1).axis_style = m.axis_style ∧
    (line_style_1 m s1).label_style = m.label_style ∧
    (line_style_1 m s1).format_x = m.format_x ∧
    (line_style_1 m s1).format_y = m.format_y ∧
    (line_style_1 m s1).target = m.target ∧
    (line_style_2 m s2).line_style_2 = some s2 ∧
    (line_style_2 m s2).draw_x_mesh = m.draw_x_mesh ∧
    (line_style_2 m s2).draw_y_mesh = m.draw_y_mesh ∧
    (line_style_2 m s2).draw_x_axis = m.draw_x_axis ∧
    (line_style_2 m s2).draw_y_axis = m.draw_y_axis ∧
    (line_style_2 m s2).x_label_offset = m.x_label_offset ∧
    (line_style_2 m s2).n_x_labels = m.n_x_labels ∧
    (line_style_2 m s2).n_y_labels = m.n_y_labels ∧
    (line_style_2 m s2).axis_desc_style = m.axis_desc_style ∧
    (line_style_2 m s2).x_desc = m.x_desc ∧
    (line_style_2 m s2).y_desc = m.y_desc ∧
    (line_style_2 m s2).line_style_1 = m.line_style_1 ∧
    (line_style_2 m s2).axis_style = m.axis_style ∧
    (line_style_2 m s2).label_style = m.label_style ∧
    (line_style_2 m s2).format_x = m.format_x ∧
    (line_style_2 m s2).format_y = m.format_y ∧
    (line_style_2 m s2).target = m.target ∧
    (label_style m ls).label_style = some ls ∧
    (label_style m ls).draw_x_mesh = m.draw_x_mesh ∧
    (label_style m ls).draw_y_mesh = m.draw_y_mesh ∧
    (label_style m ls).draw_x_axis = m.draw_x_axis ∧
    (label_style m ls).draw_y_axis = m.draw_y_axis ∧
    (label_style m ls).x_label_offset = m.x_label_offset ∧
    (label_style m ls).n_x_labels = m.n_x_labels ∧
    (label_style m ls).n_y_labels = m.n_y_labels ∧
    (label_style m ls).axis_desc_style = m.axis_desc_style ∧
    (label_style m ls).x_desc = m.x_desc ∧
    (label_style m ls).y_desc = m.y_desc ∧
    (label_style m ls).line_style_1 = m.line_style_1 ∧
    (label_style m ls).line_style_2 = m.line_style_2 ∧
    (label_style m ls).axis_style = m.axis_style ∧
    (label_style m ls).format_x = m.format_x ∧
    (label_style m ls).format_y = m.format_y ∧
    (label_style m ls).target = m.target ∧
    (x_label_formatter m fx).format_x = fx ∧
    (x_label_formatter m fx).draw_x_mesh = m.draw_x_mesh ∧
    (x_label_formatter m fx).draw_y_mesh = m.draw_y_mesh ∧
    (x_label_formatter m fx).draw_x_axis = m.draw_x_axis ∧
    (x_label_formatter m fx).draw_y_axis = m.draw_y_axis ∧
    (x_label_formatter m fx).x_label_offset = m.x_label_offset ∧
    (x_label_formatter m fx).n_x_labels = m.n_x_labels ∧
    (x_label_formatter m fx).n_y_labels = m.n_y_labels ∧
    (x_label_formatter m fx).axis_desc_style = m.axis_desc_style ∧
    (x_label_formatter m fx).x_desc = m.x_desc ∧
    (x_label_formatter m fx).y_desc = m.y_desc ∧
    (x_label_formatter m fx).line_style_1 = m.line_style_1 ∧
    (x_label_formatter m fx).line_style_2 = m.line_style_2 ∧
    (x_label_formatter m fx).axis_style = m.axis_style ∧
    (x_label_formatter m fx).label_style = m.label_style ∧
    (x_label_formatter m fx).format_y = m.format_y ∧
    (x_label_formatter m fx).target = m.target ∧
    (y_label_formatter m fy).format_y = fy ∧
    (y_label_formatter m fy).draw_x_mesh = m.draw_x_mesh ∧
    (y_label_formatter m fy).draw_y_mesh = m.draw_y_mesh ∧
    (y_label_formatter m fy).draw_x_axis = m.draw_x_axis ∧
    (y_label_formatter m fy).draw_y_axis = m.draw_y_axis ∧
    (y_label_formatter m fy).x_label_offset = m.x_label_offset ∧
    (y_label_formatter m fy).n_x_labels = m.n_x_labels ∧
    (y_label_formatter m fy).n_y_labels = m.n_y_labels ∧
    (y_label_formatter m fy).axis_desc_style = m.axis_desc_style ∧
    (y_label_formatter m fy).x_desc = m.x_desc ∧
    (y_label_formatter m fy).y_desc = m.y_desc ∧
    (y_label_formatter m fy).line_style_1 = m.line_style_1 ∧
    (y_label_formatter m fy).line_style_2 = m.line_style_2 ∧
    (y_label_formatter m fy).axis_style = m.axis_style ∧
    (y_label_formatter m fy).label_style = m.label_style ∧
    (y_label_formatter m fy).format_x = m.format_x ∧
    (y_label_formatter m fy).target = m.target ∧
    (axis_desc_style m ads).axis_desc_style = some ads ∧
    (axis_desc_style m ads).draw_x_mesh = m.draw_x_mesh ∧
    (axis_desc_style m ads).draw_y_mesh = m.draw_y_mesh ∧
    (axis_desc_style m ads).draw_x_axis = m.draw_x_axis ∧
    (axis_desc_style m ads).draw_y_axis = m.draw_y_axis ∧
    (axis_desc_style m ads).x_label_offset = m.x_label_offset ∧
    (axis_desc_style m ads).n_x_labels = m.n_x_labels ∧
    (axis_desc_style m ads).n_y_labels = m.n_y_labels ∧
    (axis_desc_style m ads).x_desc = m.x_desc ∧
    (axis_desc_style m ads).y_desc = m.y_desc ∧
    (axis_desc_style m ads).line_style_1 = m.line_style_1 ∧
    (axis_desc_style m ads).line_style_2 = m.line_style_2 ∧
    (axis_desc_style m ads).axis_style = m.axis_style ∧
    (axis_desc_style m ads).label_style = m.label_style ∧
    (axis_desc_style m ads).format_x = m.format_x ∧
    (axis_desc_style m ads).format_y = m.format_y ∧
    (axis_desc_style m ads).target = m.target ∧
    (x_desc m dx).x_desc = some dx ∧
    (x_desc m dx).draw_x_mesh = m.draw_x_mesh ∧
    (x_desc m dx).draw_y_mesh = m.draw_y_mesh ∧
    (x_desc m dx).draw_x_axis = m.draw_x_axis ∧
    (x_desc m dx).draw_y_axis = m.draw_y_axis ∧
    (x_desc m dx).x_label_offset = m.x_label_offset ∧
    (x_desc m dx).n_x_labels = m.n_x_labels ∧
    (x_desc m dx).n_y_labels = m.n_y_labels ∧
    (x_desc m dx).axis_desc_style = m.axis_desc_style ∧
    (x_desc m dx).y_desc = m.y_desc ∧
    (x_desc m dx).line_style_1 = m.line_style_1 ∧
    (x_desc m dx).line_style_2 = m.line_style_2 ∧
    (x_desc m dx).axis_style = m.axis_style ∧
    (x_desc m dx).label_style = m.label_style ∧
    (x_desc m dx).format_x = m.format_x ∧
    (x_desc m dx).format_y = m.format_y ∧
    (x_desc m dx).target = m.target ∧
    (y_desc m dy).y_desc = some dy ∧
    (y_desc m dy).draw_x_mesh = m.draw_x_mesh ∧
    (y_desc m dy).draw_y_mesh = m.draw_y_mesh ∧
    (y_desc m dy).draw_x_axis = m.draw_x_axis ∧
    (y_desc m dy).draw_y_axis = m.draw_y_axis ∧
    (y_desc m dy).x_label_offset = m.x_label_offset ∧
    (y_desc m dy).n_x_labels = m.n_x_labels ∧
    (y_desc m dy).n_y_labels = m.n_y_labels ∧
    (y_desc m dy).axis_desc_style = m.axis_desc_style ∧
    (y_desc m dy).x_desc = m.x_desc ∧
    (y_desc m dy).line_style_1 = m.line_style_1 ∧
    (y_desc m dy).line_style_2 = m.line_style_2 ∧
    (y_desc m dy).axis_style = m.axis_style ∧
    (y_desc m dy).label_style = m.label_style ∧
    (y_desc m dy).format_x = m.format_x ∧
    (y_desc m dy).format_y = m.format_y ∧
    (y_desc m dy).target = m.target := by
  repeat' apply And.intro
  all_goals rfl
